import Mathlib

/-!
Verification of the resilient place-discovery pipeline in
`src/services/googlePlacesApi.ts` (RoamRelic).

Shallow embedding conventions:
* JavaScript numbers are modelled as `ℝ`; `Math.round` becomes `jsRound`
  (floor of `x + 1/2`, matching JS round-half-toward-positive-infinity).
* `Number.prototype.toFixed(1)` applied to `m / 1000` for the nonnegative
  integers produced by `Math.round` is modelled by exact decimal rounding
  (half-up) of the rational `m / 1000`, which agrees with the JS double
  computation away from exact decimal ties.
* `String.prototype.includes` becomes `jsIncludes`; `split(',')`, `trim`
  and `toLowerCase` become `jsSplitComma`, `jsTrim` and `jsToLower`
  (structurally recursive so that concrete instances reduce).
* Optional TS fields become `Option`; JS truthiness checks on optional
  strings (`if (place.vicinity)`, `if (apiKey)`) are modelled by `Option`
  matching, `none` covering both `undefined` and the falsy empty string.
* The network environment of one `fetchHistoricPlacesWithCORS` call is an
  explicit `Env`: the configured access key and, for each proxy path, the
  classified result of the attempted interaction (`RawOutcome`).  Code that
  can throw (the `fetch` call, body JSON decoding, shape mismatches while
  consuming the decoded value) is modelled in an `Except` layer; the inner
  per-proxy `try/catch` and the outer `try/catch` are modelled where the
  source has them.
* The `Location` record shape is reconstructed from the object literals in
  the source file (the `../types` module is not part of the sources).
-/

/-- Helper for `jsIncludes`: does `pat` occur as a contiguous segment? -/
def jsIncludesAux (pat : List Char) : List Char → Bool
  | [] => pat.isEmpty
  | c :: t => pat.isPrefixOf (c :: t) || jsIncludesAux pat t

/-- Model of JavaScript `s.includes(pat)`. -/
def jsIncludes (s pat : String) : Bool :=
  jsIncludesAux pat.toList s.toList

/-- Model of JavaScript `s.toLowerCase()` (structural recursion over the
character list, so that concrete instances reduce). -/
def jsToLower (s : String) : String :=
  String.mk (s.data.map Char.toLower)

/-- Helper for `jsSplitComma`: accumulate the current segment (reversed). -/
def splitCommaAux : List Char → List Char → List String
  | [], acc => [String.mk acc.reverse]
  | c :: t, acc =>
    if c = ',' then String.mk acc.reverse :: splitCommaAux t []
    else splitCommaAux t (c :: acc)

/-- Model of JavaScript `s.split(',')`. -/
def jsSplitComma (s : String) : List String :=
  splitCommaAux s.data []

/-- The whitespace test backing `jsTrim`. -/
def isJsWhitespace (c : Char) : Bool :=
  c = ' ' || c = '\t' || c = '\n' || c = '\r'

/-- Model of JavaScript `s.trim()`. -/
def jsTrim (s : String) : String :=
  String.mk (((s.data.dropWhile isJsWhitespace).reverse.dropWhile isJsWhitespace).reverse)

/-- Model of JavaScript `Math.round`: round half toward positive infinity. -/
noncomputable def jsRound (x : ℝ) : ℤ :=
  ⌊x + 1 / 2⌋

/-- Model of JavaScript `Math.atan2 y x`.  Only the `x > 0` branch is
exercised by the Haversine computation (its second argument is a square
root that is positive there). -/
noncomputable def atan2 (y x : ℝ) : ℝ :=
  if 0 < x then Real.arctan (y / x)
  else if x < 0 ∧ 0 ≤ y then Real.arctan (y / x) + Real.pi
  else if x < 0 then Real.arctan (y / x) - Real.pi
  else if 0 < y then Real.pi / 2
  else if y < 0 then -(Real.pi / 2)
  else 0

/-- One entry of the optional `photos` array of a Google place. -/
structure PlacePhoto where
  height : ℕ
  width : ℕ
  photo_reference : String

/-- The optional `opening_hours` object of a Google place. -/
structure OpeningHours where
  open_now : Bool

/-- The `geometry.location` coordinate pair of a Google place. -/
structure LatLng where
  lat : ℝ
  lng : ℝ

/-- The `geometry` object of a Google place. -/
structure Geometry where
  location : LatLng

/-- Interface `GooglePlaceResponse` from the source. -/
structure GooglePlaceResponse where
  place_id : String
  name : String
  types : List String
  business_status : Option String
  formatted_address : Option String
  geometry : Geometry
  rating : Option ℝ
  user_ratings_total : Option ℕ
  vicinity : Option String
  photos : Option (List PlacePhoto)
  opening_hours : Option OpeningHours

/-- Interface `GooglePlacesApiResponse` from the source. -/
structure GooglePlacesApiResponse where
  results : List GooglePlaceResponse
  status : String
  error_message : Option String
  next_page_token : Option String

/-- The `googlePlacesData` payload stored on a `Location`. -/
structure GooglePlacesData where
  rating : Option ℝ
  userRatingsTotal : Option ℕ
  businessStatus : Option String
  openNow : Option Bool
  types : List String
  formattedAddress : Option String
  vicinity : Option String

/-- Domain entity `Location` (the spec calls it `Place`); shape taken from
the object literals constructed in the source. -/
structure Location where
  id : String
  name : String
  description : String
  latitude : ℝ
  longitude : ℝ
  imageUrl : String
  audioUrl : Option String
  audioTitle : Option String
  audioDuration : Option String
  category : String
  distance : String
  googlePlacesData : Option GooglePlacesData

/-- `calculateDistance` from the source: Haversine distance in meters,
rounded by `Math.round`. -/
noncomputable def calculateDistance (lat1 lon1 lat2 lon2 : ℝ) : ℤ :=
  let R : ℝ := 6371
  let dLat := (lat2 - lat1) * Real.pi / 180
  let dLon := (lon2 - lon1) * Real.pi / 180
  let a := Real.sin (dLat / 2) * Real.sin (dLat / 2) +
    Real.cos (lat1 * Real.pi / 180) * Real.cos (lat2 * Real.pi / 180) *
    Real.sin (dLon / 2) * Real.sin (dLon / 2)
  let c := 2 * atan2 (Real.sqrt a) (Real.sqrt (1 - a))
  let distance := R * c * 1000
  jsRound distance

/-- Model of `(distance / 1000).toFixed(1)` for the integer meter values
produced by `calculateDistance`: decimal rounding (half-up) of
`distance / 1000` to one fractional digit. -/
def toFixed1km (m : ℤ) : String :=
  let tenths : ℤ := (10 * m + 500) / 1000
  toString (tenths / 10) ++ "." ++ toString (tenths % 10)

/-- The distance-label expression from `convertGooglePlaceToLocation`:
`distance > 1000 ? (distance/1000).toFixed(1) + "km" : distance + "m"`. -/
def formatDistance (distance : ℤ) : String :=
  if 1000 < distance then toFixed1km distance ++ "km" else toString distance ++ "m"

/-- `buildPlaceDescription` from `convertGooglePlaceToLocation`. -/
def buildPlaceDescription (place : GooglePlaceResponse) : String :=
  let placeTypes := place.types
  let description :=
    if placeTypes.contains "tourist_attraction" || placeTypes.contains "museum" then
      place.name ++ " is a renowned heritage site and tourist destination. "
    else if placeTypes.contains "place_of_worship" || placeTypes.contains "hindu_temple" then
      place.name ++ " is a sacred place of worship with rich cultural and spiritual significance. "
    else if placeTypes.contains "historical_landmark" then
      place.name ++ " is a historical landmark that showcases the architectural heritage and cultural legacy of the region. "
    else
      place.name ++ " is a significant heritage site that represents the cultural and historical importance of this area. "
  let description :=
    match place.vicinity with
    | some v => description ++ "Located in " ++ v ++ ", "
    | none =>
      match place.formatted_address with
      | some addr =>
        let addressParts := jsSplitComma addr
        if 1 < addressParts.length then
          description ++ "Located in " ++ jsTrim (addressParts.getD (addressParts.length - 2) "") ++ ", "
        else description
      | none => description
  description ++ "this site offers visitors a glimpse into the rich history and cultural traditions that have shaped this region over centuries."

/-- `getImageUrl` from `convertGooglePlaceToLocation`.  The ambient
`process.env` access key is threaded explicitly as `apiKey`. -/
def getImageUrl (apiKey : Option String) (place : GooglePlaceResponse) : String :=
  match place.photos, apiKey with
  | some (photo :: _), some key =>
    "https://cors-anywhere.herokuapp.com/" ++
      ("https://maps.googleapis.com/maps/api/place/photo?maxwidth=400&photoreference=" ++
        photo.photo_reference ++ "&key=" ++ key)
  | _, _ =>
    let placeTypes := place.types
    if placeTypes.contains "museum" then
      "https://images.unsplash.com/photo-1578495555443-d134c52754e7?w=400&h=300&fit=crop"
    else if placeTypes.contains "place_of_worship" || placeTypes.contains "hindu_temple" then
      "https://images.unsplash.com/photo-1583224964938-0c17db9e623a?w=400&h=300&fit=crop"
    else if placeTypes.contains "historical_landmark" || jsIncludes (jsToLower place.name) "fort" then
      "https://images.unsplash.com/photo-1566127952889-bf906f4e4c5d?w=400&h=300&fit=crop"
    else if jsIncludes (jsToLower place.name) "palace" then
      "https://images.unsplash.com/photo-1545042746-d0a8b69e5e22?w=400&h=300&fit=crop"
    else if jsIncludes (jsToLower place.name) "charminar" then
      "https://images.unsplash.com/photo-1564507592333-c60657eea523?w=400&h=300&fit=crop"
    else
      "https://images.unsplash.com/photo-1578662996442-48f60103fc96?w=400&h=300&fit=crop"

/-- `convertGooglePlaceToLocation` from the source (access key threaded
explicitly, as for `getImageUrl`). -/
noncomputable def convertGooglePlaceToLocation (apiKey : Option String)
    (place : GooglePlaceResponse) (userLat userLng : ℝ) : Location :=
  let distance := calculateDistance userLat userLng place.geometry.location.lat place.geometry.location.lng
  { id := place.place_id
    name := place.name
    description := buildPlaceDescription place
    latitude := place.geometry.location.lat
    longitude := place.geometry.location.lng
    imageUrl := getImageUrl apiKey place
    audioUrl := none
    audioTitle := none
    audioDuration := none
    category := "heritage"
    distance := formatDistance distance
    googlePlacesData := some
      { rating := place.rating
        userRatingsTotal := place.user_ratings_total
        businessStatus := place.business_status
        openNow := place.opening_hours.map OpeningHours.open_now
        types := place.types
        formattedAddress := place.formatted_address
        vicinity := place.vicinity } }

/-- `filterHistoricPlaces` from the source. -/
def filterHistoricPlaces (places : List GooglePlaceResponse) : List GooglePlaceResponse :=
  places.filter fun place =>
    let historicTypes := ["tourist_attraction", "museum", "place_of_worship",
      "establishment", "point_of_interest"]
    let historicKeywords := ["temple", "fort", "palace", "monument", "heritage", "historic",
      "archaeological", "ancient", "cultural", "tomb", "mosque", "church",
      "castle", "cathedral", "shrine", "memorial"]
    let hasHistoricType := place.types.any fun t => historicTypes.contains t
    let hasHistoricKeyword := historicKeywords.any fun keyword =>
      jsIncludes (jsToLower place.name) keyword ||
        match place.vicinity with
        | some v => jsIncludes (jsToLower v) keyword
        | none => false
    hasHistoricType || hasHistoricKeyword

/-- The fixed proxy-path list `corsProxies` from the source. -/
def corsProxies : List String :=
  ["https://api.allorigins.win/get?url=",
   "https://corsproxy.io/?",
   "https://thingproxy.freeboard.io/fetch/",
   "https://cors-anywhere.herokuapp.com/"]

/-- Classified result of the network interaction on one proxy path, as the
source's control flow distinguishes them: a rejected `fetch` promise, a
response with `response.ok` false, a body that fails JSON decoding (or does
not match the expected shape when consumed), an allorigins wrapper whose
`status.http_code` is not 200, or a decoded provider payload. -/
inductive RawOutcome where
  | fetchThrow
  | httpFail
  | jsonThrow
  | envelopeFail
  | payload (data : GooglePlacesApiResponse)

/-- Environment of one discovery call: the configured access key (`none`
covers an undefined or empty `REACT_APP_GOOGLE_PLACES_API_KEY`) and the
outcome each proxy path would produce if attempted. -/
structure Env where
  apiKey : Option String
  raw : Nat → RawOutcome

/-- The body of one iteration of the proxy loop, inside the per-proxy
`try`: `Except.error` marks a thrown exception, `Except.ok none` a logged
failure followed by `continue`, `Except.ok (some results)` the success
return value (the unwrapped candidate list). -/
def attemptBody (env : Env) (i : Nat) : Except Unit (Option (List GooglePlaceResponse)) :=
  match env.raw i with
  | RawOutcome.fetchThrow => Except.error ()
  | RawOutcome.jsonThrow => Except.error ()
  | RawOutcome.httpFail => Except.ok none
  | RawOutcome.envelopeFail => Except.ok none
  | RawOutcome.payload data =>
    if data.status = "OK" then Except.ok (some data.results) else Except.ok none

/-- One proxy attempt with its surrounding `catch (proxyError) { continue }`. -/
def attempt (env : Env) (i : Nat) : Option (List GooglePlaceResponse) :=
  match attemptBody env i with
  | Except.error _ => none
  | Except.ok r => r

/-- The `for` loop over the proxy list: walks the given index list in
order, short-circuiting on the first successful attempt.  Returns the list
of indices actually attempted (in order) together with the result. -/
def proxyLoop (env : Env) : List Nat → List Nat × Option (List GooglePlaceResponse)
  | [] => ([], none)
  | i :: rest =>
    match attempt env i with
    | some results => ([i], some results)
    | none =>
      let r := proxyLoop env rest
      (i :: r.1, r.2)

/-- The proxy paths attempted by one `fetchHistoricPlacesWithCORS` call:
none when the key is missing (the function returns fallback data before
any request is built), otherwise the trace of the proxy loop. -/
def fetchAttempts (env : Env) : List Nat :=
  match env.apiKey with
  | none => []
  | some _ => (proxyLoop env (List.range corsProxies.length)).1

/-- `getFallbackHistoricPlaces` from the source. -/
noncomputable def getFallbackHistoricPlaces (latitude longitude : ℝ) : List Location :=
  [{ id := "fallback-historic-1"
     name := "Charminar Heritage Monument"
     description := "Charminar is a magnificent monument and mosque built in 1591. This iconic structure stands as a symbol of Hyderabad with its four grand arches and minarets. The monument showcases Indo-Islamic architecture and offers visitors a glimpse into the rich history of the Qutb Shahi dynasty."
     latitude := latitude + 0.01
     longitude := longitude + 0.01
     imageUrl := "https://images.unsplash.com/photo-1564507592333-c60657eea523?w=400&h=300&fit=crop"
     audioUrl := none
     audioTitle := none
     audioDuration := none
     category := "heritage"
     distance := "1.2km"
     googlePlacesData := some
       { rating := some 4.5
         userRatingsTotal := some 8234
         businessStatus := some "OPERATIONAL"
         openNow := some true
         types := ["tourist_attraction", "historical_landmark", "monument"]
         formattedAddress := some "Charminar Rd, Char Kaman, Ghansi Bazaar, Hyderabad, Telangana 500002, India"
         vicinity := some "Charminar" } },
   { id := "fallback-heritage-2"
     name := "State Archaeological Museum"
     description := "The State Archaeological Museum houses an extensive collection of artifacts, sculptures, and relics that chronicle the rich cultural heritage of the region. Established to preserve and showcase archaeological treasures, the museum offers visitors an educational journey through centuries of art, culture, and history."
     latitude := latitude - 0.01
     longitude := longitude + 0.01
     imageUrl := "https://images.unsplash.com/photo-1578495555443-d134c52754e7?w=400&h=300&fit=crop"
     audioUrl := none
     audioTitle := none
     audioDuration := none
     category := "heritage"
     distance := "2.1km"
     googlePlacesData := some
       { rating := some 4.2
         userRatingsTotal := some 1456
         businessStatus := some "OPERATIONAL"
         openNow := some true
         types := ["museum", "tourist_attraction", "cultural_center"]
         formattedAddress := some "Public Gardens, Nampally, Hyderabad, Telangana 500001, India"
         vicinity := some "Nampally" } },
   { id := "fallback-temple-3"
     name := "Birla Mandir Temple"
     description := "Birla Mandir is a stunning Hindu temple constructed entirely of white marble and dedicated to Lord Venkateswara. Perched atop a hill, this temple combines traditional and modern architectural elements, offering devotees and visitors a serene spiritual experience along with panoramic views of the city."
     latitude := latitude + 0.005
     longitude := longitude - 0.005
     imageUrl := "https://images.unsplash.com/photo-1583224964938-0c17db9e623a?w=400&h=300&fit=crop"
     audioUrl := none
     audioTitle := none
     audioDuration := none
     category := "heritage"
     distance := "800m"
     googlePlacesData := some
       { rating := some 4.7
         userRatingsTotal := some 12089
         businessStatus := some "OPERATIONAL"
         openNow := some true
         types := ["hindu_temple", "place_of_worship", "tourist_attraction"]
         formattedAddress := some "Hill Fort Rd, Ambedkar Colony, Mehdipatnam, Hyderabad, Telangana 500028, India"
         vicinity := some "Mehdipatnam" } },
   { id := "fallback-fort-4"
     name := "Golconda Fort"
     description := "Golconda Fort is a medieval fortress built by the Kakatiya dynasty and later expanded by the Qutb Shahi rulers. This imposing citadel features ingenious architecture, intricate acoustic systems, and defensive mechanisms. The fort complex offers visitors a fascinating journey through military architecture and royal history."
     latitude := latitude - 0.005
     longitude := longitude - 0.01
     imageUrl := "https://images.unsplash.com/photo-1566127952889-bf906f4e4c5d?w=400&h=300&fit=crop"
     audioUrl := none
     audioTitle := none
     audioDuration := none
     category := "heritage"
     distance := "1.8km"
     googlePlacesData := some
       { rating := some 4.3
         userRatingsTotal := some 15678
         businessStatus := some "OPERATIONAL"
         openNow := some false
         types := ["historical_landmark", "fort", "tourist_attraction"]
         formattedAddress := some "Khair Complex, Ibrahim Bagh, Hyderabad, Telangana 500008, India"
         vicinity := some "Ibrahim Bagh" } },
   { id := "fallback-palace-5"
     name := "Chowmahalla Palace"
     description := "Chowmahalla Palace served as the official residence of the Nizams of Hyderabad and is renowned for its exquisite architecture and royal grandeur. The palace complex showcases a blend of Persian, Turkish, and European architectural styles, featuring ornate halls, beautiful courtyards, and a remarkable collection of vintage cars and artifacts."
     latitude := latitude + 0.008
     longitude := longitude - 0.008
     imageUrl := "https://images.unsplash.com/photo-1545042746-d0a8b69e5e22?w=400&h=300&fit=crop"
     audioUrl := none
     audioTitle := none
     audioDuration := none
     category := "heritage"
     distance := "2.5km"
     googlePlacesData := some
       { rating := some 4.4
         userRatingsTotal := some 3567
         businessStatus := some "CLOSED_TEMPORARILY"
         openNow := some false
         types := ["palace", "historical_landmark", "museum"]
         formattedAddress := some "20-4-236, Motigalli, Khilwat, Hyderabad, Telangana 500002, India"
         vicinity := some "Khilwat" } }]

/-- The body of the outer `try` of `fetchHistoricPlacesWithCORS`: missing
key returns fallback immediately; otherwise the proxy loop runs, a success
is filtered and converted, and exhaustion falls back.  Every potential
throw is inside the per-proxy `try`, so the body itself never throws. -/
noncomputable def fetchBody (env : Env) (latitude longitude : ℝ) : Except Unit (List Location) :=
  match env.apiKey with
  | none => Except.ok (getFallbackHistoricPlaces latitude longitude)
  | some key =>
    match (proxyLoop env (List.range corsProxies.length)).2 with
    | some results =>
      Except.ok ((filterHistoricPlaces results).map fun place =>
        convertGooglePlaceToLocation (some key) place latitude longitude)
    | none => Except.ok (getFallbackHistoricPlaces latitude longitude)

/-- `fetchHistoricPlacesWithCORS` from the source: the outer `catch`
converts any escaped exception into the fallback list. -/
noncomputable def fetchHistoricPlacesWithCORS (env : Env) (latitude longitude : ℝ) :
    Except Unit (List Location) :=
  match fetchBody env latitude longitude with
  | Except.error _ => Except.ok (getFallbackHistoricPlaces latitude longitude)
  | Except.ok l => Except.ok l

/-- The ordered static-fallback image rules of the resolution policy, as
the (amended) specification words them: museum tag, then worship tags,
then landmark tag or the word fort in the name, then palace in the name,
then charminar in the name. -/
def fallbackImageRules : List ((GooglePlaceResponse → Bool) × String) :=
  [(fun place => place.types.contains "museum",
    "https://images.unsplash.com/photo-1578495555443-d134c52754e7?w=400&h=300&fit=crop"),
   (fun place => place.types.contains "place_of_worship" || place.types.contains "hindu_temple",
    "https://images.unsplash.com/photo-1583224964938-0c17db9e623a?w=400&h=300&fit=crop"),
   (fun place => place.types.contains "historical_landmark" || jsIncludes (jsToLower place.name) "fort",
    "https://images.unsplash.com/photo-1566127952889-bf906f4e4c5d?w=400&h=300&fit=crop"),
   (fun place => jsIncludes (jsToLower place.name) "palace",
    "https://images.unsplash.com/photo-1545042746-d0a8b69e5e22?w=400&h=300&fit=crop"),
   (fun place => jsIncludes (jsToLower place.name) "charminar",
    "https://images.unsplash.com/photo-1564507592333-c60657eea523?w=400&h=300&fit=crop")]

/-- The fixed CORS proxy base prepended to provider photo URLs. -/
def corsProxyBase : String := "https://cors-anywhere.herokuapp.com/"

/-- The provider photo endpoint. -/
def googlePhotoEndpoint : String := "https://maps.googleapis.com/maps/api/place/photo"

/-- Spec-side restatement of the (amended) image-resolution policy, for
the refinement theorem: with a photo reference and a configured key, the
provider photo-fetch URL of the documented query form, prefixed by the
fixed CORS proxy base; otherwise the first matching rule of the ordered
static-fallback table, defaulting to the generic image. -/
def imageUrlPolicySpec (apiKey : Option String) (place : GooglePlaceResponse) : String :=
  match place.photos, apiKey with
  | some (photo :: _), some key =>
    corsProxyBase ++
      ((googlePhotoEndpoint ++ "?maxwidth=400&photoreference=") ++
        photo.photo_reference ++ "&key=" ++ key)
  | _, _ =>
    match fallbackImageRules.find? fun rule => rule.1 place with
    | some rule => rule.2
    | none => "https://images.unsplash.com/photo-1578662996442-48f60103fc96?w=400&h=300&fit=crop"

/-- Every field of a `Location` except the two coordinates, for the
anchor-independence statement about the fallback dataset. -/
def placeStaticFields (p : Location) :
    String × String × String × String × String × String ×
      Option String × Option String × Option String × Option GooglePlacesData :=
  (p.id, p.name, p.description, p.imageUrl, p.category, p.distance,
    p.audioUrl, p.audioTitle, p.audioDuration, p.googlePlacesData)

/-- An environment with no configured access key. -/
def envNoKey : Env :=
  { apiKey := none, raw := fun _ => RawOutcome.fetchThrow }

/-- An environment whose first proxy path succeeds with an empty result
list. -/
noncomputable def envEmptyOk : Env :=
  { apiKey := some "k"
    raw := fun _ => RawOutcome.payload
      { results := [], status := "OK", error_message := none, next_page_token := none } }

/-- A provider candidate whose `place_id` will collide with itself when
the provider returns it twice. -/
noncomputable def dupPlace : GooglePlaceResponse :=
  { place_id := "dup"
    name := "Old Monument"
    types := ["tourist_attraction"]
    business_status := none
    formatted_address := none
    geometry := { location := { lat := 0, lng := 0 } }
    rating := none
    user_ratings_total := none
    vicinity := none
    photos := none
    opening_hours := none }

/-- An environment whose first proxy path succeeds with the same candidate
listed twice. -/
noncomputable def envDup : Env :=
  { apiKey := some "k"
    raw := fun _ => RawOutcome.payload
      { results := [dupPlace, dupPlace], status := "OK", error_message := none,
        next_page_token := none } }

/-- A candidate carrying a fort type tag but no fort-related name and no
photo reference: a probe for the static-fallback image ordering. -/
noncomputable def fortTagPlace : GooglePlaceResponse :=
  { place_id := "fort-tag"
    name := "Golconda Citadel"
    types := ["fort"]
    business_status := none
    formatted_address := none
    geometry := { location := { lat := 0, lng := 0 } }
    rating := none
    user_ratings_total := none
    vicinity := none
    photos := none
    opening_hours := none }

/-- A candidate carrying a photo reference, for probing the photo branch
of the image-resolution policy. -/
noncomputable def photoRefPlace : GooglePlaceResponse :=
  { place_id := "photo-ref"
    name := "Some Site"
    types := ["tourist_attraction"]
    business_status := none
    formatted_address := none
    geometry := { location := { lat := 0, lng := 0 } }
    rating := none
    user_ratings_total := none
    vicinity := none
    photos := some [{ height := 300, width := 400, photo_reference := "REF" }]
    opening_hours := none }

/-- The anchor latitude of the end-to-end Charminar scenario. -/
noncomputable def hydLat : ℝ := 17.3850

/-- The anchor longitude of the end-to-end Charminar scenario. -/
noncomputable def hydLng : ℝ := 78.4867

/-- The latitude 1.11 km due north of the anchor under the great-circle
model with Earth radius 6371 km: an offset of `1.11 / 6371` radians. -/
noncomputable def charminarLat : ℝ := hydLat + 1.11 / 6371 * (180 / Real.pi)

/-- The provider candidate of the end-to-end Charminar scenario. -/
noncomputable def charminarCandidate : GooglePlaceResponse :=
  { place_id := "charminar-1"
    name := "Charminar"
    types := ["tourist_attraction"]
    business_status := none
    formatted_address := some "Charminar Rd, Hyderabad"
    geometry := { location := { lat := charminarLat, lng := hydLng } }
    rating := none
    user_ratings_total := none
    vicinity := none
    photos := none
    opening_hours := none }

/-- An environment whose first proxy path succeeds with exactly the
Charminar candidate. -/
noncomputable def envCharminar : Env :=
  { apiKey := some "k"
    raw := fun _ => RawOutcome.payload
      { results := [charminarCandidate], status := "OK", error_message := none,
        next_page_token := none } }

theorem proxyLoop_all_fail (env : Env) :
    ∀ L : List Nat, (∀ i ∈ L, attempt env i = none) → proxyLoop env L = (L, none) := by
  intro L
  induction L with
  | nil => intro _; rfl
  | cons i rest ih =>
    intro h
    have hi : attempt env i = none := h i (List.mem_cons_self i rest)
    have hrest := ih fun j hj => h j (List.mem_cons_of_mem i hj)
    simp [proxyLoop, hi, hrest]

/-- Claim C9: the Haversine distance computation is symmetric in its two
coordinates. -/
theorem calculateDistance_symm (lat1 lon1 lat2 lon2 : ℝ) :
    calculateDistance lat1 lon1 lat2 lon2 = calculateDistance lat2 lon2 lat1 lon1 := by
  have e1 : Real.sin ((lat1 - lat2) * Real.pi / 180 / 2) =
      -Real.sin ((lat2 - lat1) * Real.pi / 180 / 2) := by
    rw [show (lat1 - lat2) * Real.pi / 180 / 2 = -((lat2 - lat1) * Real.pi / 180 / 2) by ring,
      Real.sin_neg]
  have e2 : Real.sin ((lon1 - lon2) * Real.pi / 180 / 2) =
      -Real.sin ((lon2 - lon1) * Real.pi / 180 / 2) := by
    rw [show (lon1 - lon2) * Real.pi / 180 / 2 = -((lon2 - lon1) * Real.pi / 180 / 2) by ring,
      Real.sin_neg]
  have ecos : Real.cos (lat2 * Real.pi / 180) * Real.cos (lat1 * Real.pi / 180) =
      Real.cos (lat1 * Real.pi / 180) * Real.cos (lat2 * Real.pi / 180) := mul_comm _ _
  have esq : ∀ x y : ℝ, x * -y * -y = x * y * y := fun _ _ => by ring
  simp only [calculateDistance, e1, e2, neg_mul_neg, ecos, esq]

/-- Claim C6: distance labels use kilometers with one fractional digit and
a km suffix exactly above 1000 meters, whole meters with an m suffix
otherwise; 1000 maps to 1000m and 1001 to 1.0km. -/
theorem formatDistance_km_boundary (m : ℤ) (_h : 0 ≤ m) :
    (1000 < m → ∃ w d : ℤ, 0 ≤ w ∧ 0 ≤ d ∧ d < 10 ∧
      10 * w + d = (10 * m + 500) / 1000 ∧
      formatDistance m = toString w ++ "." ++ toString d ++ "km")
    ∧ (m ≤ 1000 → formatDistance m = toString m ++ "m")
    ∧ formatDistance 1000 = "1000m" ∧ formatDistance 1001 = "1.0km" := by
  refine ⟨?_, ?_, by decide, by decide⟩
  · intro hm
    refine ⟨(10 * m + 500) / 1000 / 10, (10 * m + 500) / 1000 % 10, ?_, ?_, ?_, ?_, ?_⟩
    · omega
    · omega
    · omega
    · omega
    · simp only [formatDistance, toFixed1km, if_pos hm]
  · intro hm
    simp only [formatDistance, if_neg (not_lt.mpr hm)]

theorem formatDistance_km_boundary_witness :
    (0 : ℤ) ≤ 1110 ∧
    ((1000 < (1110 : ℤ) → ∃ w d : ℤ, 0 ≤ w ∧ 0 ≤ d ∧ d < 10 ∧
      10 * w + d = (10 * 1110 + 500) / 1000 ∧
      formatDistance 1110 = toString w ++ "." ++ toString d ++ "km")
    ∧ ((1110 : ℤ) ≤ 1000 → formatDistance 1110 = toString (1110 : ℤ) ++ "m")
    ∧ formatDistance 1000 = "1000m" ∧ formatDistance 1001 = "1.0km") :=
  ⟨by decide, formatDistance_km_boundary 1110 (by decide)⟩

/-- Claim C10: the fallback seed lists produced for any two anchors agree
on every field except latitude and longitude; in particular the distance
labels are fixed constants. -/
theorem fallback_anchor_independent (a b c d : ℝ) :
    (getFallbackHistoricPlaces a b).map placeStaticFields =
      (getFallbackHistoricPlaces c d).map placeStaticFields
    ∧ (getFallbackHistoricPlaces a b).map Location.distance =
      ["1.2km", "2.1km", "800m", "1.8km", "2.5km"] :=
  ⟨rfl, rfl⟩

/-- Claim C1: for every requester coordinate and every environment outcome,
`fetchHistoricPlacesWithCORS` resolves with a list of places and never
rejects. -/
theorem discoverPlaces_total (env : Env) (lat lng : ℝ) :
    ∃ places : List Location, fetchHistoricPlacesWithCORS env lat lng = Except.ok places := by
  unfold fetchHistoricPlacesWithCORS fetchBody
  rcases hk : env.apiKey with _ | key
  · exact ⟨_, rfl⟩
  · rcases hr : (proxyLoop env (List.range corsProxies.length)).2 with _ | results <;>
      exact ⟨_, rfl⟩

/-- Claim C2: with a missing access key (and then without any network
attempt) or on total proxy exhaustion, the call returns the fallback seed
list: 5 entries whose coordinates are the anchor plus fixed deltas of
magnitude at most 0.01 degrees. -/
theorem discoverPlaces_fallback (env : Env) (lat lng : ℝ)
    (h : env.apiKey = none ∨ ∀ i < corsProxies.length, attempt env i = none) :
    fetchHistoricPlacesWithCORS env lat lng = Except.ok (getFallbackHistoricPlaces lat lng)
    ∧ (env.apiKey = none → fetchAttempts env = [])
    ∧ (getFallbackHistoricPlaces lat lng).length = 5
    ∧ ∀ p ∈ getFallbackHistoricPlaces lat lng, ∃ dLat dLon : ℝ,
        p.latitude = lat + dLat ∧ p.longitude = lng + dLon ∧
          |dLat| ≤ 0.01 ∧ |dLon| ≤ 0.01 := by
  refine ⟨?_, ?_, rfl, ?_⟩
  · rcases hk : env.apiKey with _ | key
    · unfold fetchHistoricPlacesWithCORS fetchBody
      simp [hk]
    · rcases h with h | h
      · rw [hk] at h; exact absurd h (by simp)
      · have hfail : proxyLoop env (List.range corsProxies.length) =
            (List.range corsProxies.length, none) :=
          proxyLoop_all_fail env _ fun i hi => h i (List.mem_range.mp hi)
        unfold fetchHistoricPlacesWithCORS fetchBody
        simp [hk, hfail]
  · intro hk
    unfold fetchAttempts
    simp [hk]
  · intro p hp
    simp only [getFallbackHistoricPlaces, List.mem_cons, List.not_mem_nil, or_false] at hp
    rcases hp with rfl | rfl | rfl | rfl | rfl
    · exact ⟨0.01, 0.01, rfl, rfl, by rw [abs_le]; norm_num, by rw [abs_le]; norm_num⟩
    · exact ⟨-0.01, 0.01, by ring, rfl, by rw [abs_le]; norm_num, by rw [abs_le]; norm_num⟩
    · exact ⟨0.005, -0.005, rfl, by ring, by rw [abs_le]; norm_num, by rw [abs_le]; norm_num⟩
    · exact ⟨-0.005, -0.01, by ring, by ring, by rw [abs_le]; norm_num, by rw [abs_le]; norm_num⟩
    · exact ⟨0.008, -0.008, rfl, by ring, by rw [abs_le]; norm_num, by rw [abs_le]; norm_num⟩

theorem discoverPlaces_fallback_witness :
    (envNoKey.apiKey = none ∨ ∀ i < corsProxies.length, attempt envNoKey i = none)
    ∧ (fetchHistoricPlacesWithCORS envNoKey 0 0 = Except.ok (getFallbackHistoricPlaces 0 0)
      ∧ (envNoKey.apiKey = none → fetchAttempts envNoKey = [])
      ∧ (getFallbackHistoricPlaces 0 0).length = 5
      ∧ ∀ p ∈ getFallbackHistoricPlaces 0 0, ∃ dLat dLon : ℝ,
          p.latitude = 0 + dLat ∧ p.longitude = 0 + dLon ∧
            |dLat| ≤ 0.01 ∧ |dLon| ≤ 0.01) :=
  ⟨Or.inl rfl, discoverPlaces_fallback envNoKey 0 0 (Or.inl rfl)⟩

/-- Claim C3: the proxy chain walks the fixed path list strictly in order,
attempts each path at most once, short-circuits on the first success
(returning its unwrapped candidate list, attempting no later path), and
reports exhaustion exactly when every path was attempted once and failed. -/
theorem proxy_chain_walk (env : Env) :
    (∃ t, (proxyLoop env (List.range corsProxies.length)).1 ++ t =
      List.range corsProxies.length)
    ∧ ((proxyLoop env (List.range corsProxies.length)).2 = none ↔
        ∀ i < corsProxies.length, attempt env i = none)
    ∧ ((proxyLoop env (List.range corsProxies.length)).2 = none →
        (proxyLoop env (List.range corsProxies.length)).1 =
          List.range corsProxies.length)
    ∧ ∀ l, (proxyLoop env (List.range corsProxies.length)).2 = some l →
        ∃ j < corsProxies.length, attempt env j = some l ∧
          (∀ k < j, attempt env k = none) ∧
          (proxyLoop env (List.range corsProxies.length)).1 = List.range (j + 1) := by
  have hlen : corsProxies.length = 4 := rfl
  have hrange : List.range 4 = [0, 1, 2, 3] := rfl
  rw [hlen, hrange]
  rcases h0 : attempt env 0 with _ | l0
  · rcases h1 : attempt env 1 with _ | l1
    · rcases h2 : attempt env 2 with _ | l2
      · rcases h3 : attempt env 3 with _ | l3
        · have hl : proxyLoop env [0, 1, 2, 3] = ([0, 1, 2, 3], none) := by
            simp [proxyLoop, h0, h1, h2, h3]
          rw [hl]
          refine ⟨⟨[], rfl⟩, ⟨fun _ i hi => ?_, fun _ => rfl⟩, fun _ => rfl, fun l hl2 => by simp at hl2⟩
          interval_cases i <;> assumption
        · have hl : proxyLoop env [0, 1, 2, 3] = ([0, 1, 2, 3], some l3) := by
            simp [proxyLoop, h0, h1, h2, h3]
          rw [hl]
          refine ⟨⟨[], rfl⟩, ⟨fun hc => by simp at hc, fun hall => ?_⟩, fun hc => by simp at hc, ?_⟩
          · exact absurd (hall 3 (by omega)) (by rw [h3]; simp)
          · intro l hsome
            obtain rfl : l3 = l := by injection hsome
            exact ⟨3, by omega, h3, fun k hk => by interval_cases k <;> assumption, rfl⟩
      · have hl : proxyLoop env [0, 1, 2, 3] = ([0, 1, 2], some l2) := by
          simp [proxyLoop, h0, h1, h2]
        rw [hl]
        refine ⟨⟨[3], rfl⟩, ⟨fun hc => by simp at hc, fun hall => ?_⟩, fun hc => by simp at hc, ?_⟩
        · exact absurd (hall 2 (by omega)) (by rw [h2]; simp)
        · intro l hsome
          obtain rfl : l2 = l := by injection hsome
          exact ⟨2, by omega, h2, fun k hk => by interval_cases k <;> assumption, rfl⟩
    · have hl : proxyLoop env [0, 1, 2, 3] = ([0, 1], some l1) := by
        simp [proxyLoop, h0, h1]
      rw [hl]
      refine ⟨⟨[2, 3], rfl⟩, ⟨fun hc => by simp at hc, fun hall => ?_⟩, fun hc => by simp at hc, ?_⟩
      · exact absurd (hall 1 (by omega)) (by rw [h1]; simp)
      · intro l hsome
        obtain rfl : l1 = l := by injection hsome
        exact ⟨1, by omega, h1, fun k hk => by interval_cases k; assumption, rfl⟩
  · have hl : proxyLoop env [0, 1, 2, 3] = ([0], some l0) := by
      simp [proxyLoop, h0]
    rw [hl]
    refine ⟨⟨[1, 2, 3], rfl⟩, ⟨fun hc => by simp at hc, fun hall => ?_⟩, fun hc => by simp at hc, ?_⟩
    · exact absurd (hall 0 (by omega)) (by rw [h0]; simp)
    · intro l hsome
      obtain rfl : l0 = l := by injection hsome
      exact ⟨0, by omega, h0, fun k hk => by omega, rfl⟩

/-- Claim C4: a successful proxy fetch whose candidates are all removed by
the relevance filter yields the empty list, not the fallback seed set. -/
theorem discoverPlaces_empty_success (env : Env) (lat lng : ℝ) (key : String)
    (results : List GooglePlaceResponse)
    (hk : env.apiKey = some key)
    (hr : (proxyLoop env (List.range corsProxies.length)).2 = some results)
    (hf : filterHistoricPlaces results = []) :
    fetchHistoricPlacesWithCORS env lat lng = Except.ok ([] : List Location)
    ∧ getFallbackHistoricPlaces lat lng ≠ ([] : List Location) := by
  constructor
  · unfold fetchHistoricPlacesWithCORS fetchBody
    simp [hk, hr, hf]
  · simp [getFallbackHistoricPlaces]

theorem discoverPlaces_empty_success_witness :
    envEmptyOk.apiKey = some "k"
    ∧ (proxyLoop envEmptyOk (List.range corsProxies.length)).2 = some []
    ∧ filterHistoricPlaces [] = []
    ∧ (fetchHistoricPlacesWithCORS envEmptyOk 0 0 = Except.ok ([] : List Location)
      ∧ getFallbackHistoricPlaces 0 0 ≠ ([] : List Location)) :=
  ⟨rfl, rfl, rfl, discoverPlaces_empty_success envEmptyOk 0 0 "k" [] rfl rfl rfl⟩

theorem convert_id (apiKey : Option String) (place : GooglePlaceResponse) (la ln : ℝ) :
    (convertGooglePlaceToLocation apiKey place la ln).id = place.place_id := rfl

/-- Claim C8 (amended): the fallback seed list always has non-empty,
pairwise-distinct ids; a provider-built list copies each candidate's
`place_id` verbatim, so its ids are non-empty and pairwise distinct
whenever the surviving candidates' `place_id`s are. -/
theorem discovery_ids_nodup :
    (∀ lat lng : ℝ, ((getFallbackHistoricPlaces lat lng).map Location.id).Nodup
      ∧ ∀ p ∈ getFallbackHistoricPlaces lat lng, p.id ≠ "")
    ∧ ∀ (env : Env) (lat lng : ℝ) (key : String) (results : List GooglePlaceResponse),
        env.apiKey = some key →
        (proxyLoop env (List.range corsProxies.length)).2 = some results →
        ((filterHistoricPlaces results).map GooglePlaceResponse.place_id).Nodup →
        (∀ r ∈ filterHistoricPlaces results, r.place_id ≠ "") →
        ∃ l, fetchHistoricPlacesWithCORS env lat lng = Except.ok l
          ∧ (l.map Location.id).Nodup ∧ ∀ p ∈ l, p.id ≠ "" := by
  constructor
  · intro lat lng
    constructor
    · have : (getFallbackHistoricPlaces lat lng).map Location.id =
          ["fallback-historic-1", "fallback-heritage-2", "fallback-temple-3",
            "fallback-fort-4", "fallback-palace-5"] := rfl
      rw [this]
      decide
    · intro p hp
      simp only [getFallbackHistoricPlaces, List.mem_cons, List.not_mem_nil, or_false] at hp
      rcases hp with rfl | rfl | rfl | rfl | rfl <;> simp
  · intro env lat lng key results hk hr hnd hne
    refine ⟨(filterHistoricPlaces results).map fun place =>
      convertGooglePlaceToLocation (some key) place lat lng, ?_, ?_, ?_⟩
    · unfold fetchHistoricPlacesWithCORS fetchBody
      simp [hk, hr]
    · have hmap : ((filterHistoricPlaces results).map fun place =>
          convertGooglePlaceToLocation (some key) place lat lng).map Location.id =
          (filterHistoricPlaces results).map GooglePlaceResponse.place_id := by
        simp [List.map_map, Function.comp, convert_id]
      rw [hmap]
      exact hnd
    · intro p hp
      rcases List.mem_map.mp hp with ⟨r, hrmem, rfl⟩
      rw [convert_id]
      exact hne r hrmem

theorem discovery_ids_nodup_witness :
    envEmptyOk.apiKey = some "k"
    ∧ (proxyLoop envEmptyOk (List.range corsProxies.length)).2 = some []
    ∧ ((filterHistoricPlaces []).map GooglePlaceResponse.place_id).Nodup
    ∧ (∀ r ∈ filterHistoricPlaces [], r.place_id ≠ "")
    ∧ ∃ l, fetchHistoricPlacesWithCORS envEmptyOk 1 2 = Except.ok l
        ∧ (l.map Location.id).Nodup ∧ ∀ p ∈ l, p.id ≠ "" :=
  ⟨rfl, rfl, List.nodup_nil, by simp [filterHistoricPlaces],
    discovery_ids_nodup.2 envEmptyOk 1 2 "k" [] rfl rfl List.nodup_nil
      (by simp [filterHistoricPlaces])⟩

/-- Claim C8 as stated is violated: a provider payload repeating one
candidate yields a returned list with two equal ids. -/
theorem discovery_ids_can_collide :
    ∃ l, fetchHistoricPlacesWithCORS envDup 0 0 = Except.ok l
      ∧ l.map Location.id = ["dup", "dup"] ∧ ¬ (l.map Location.id).Nodup := by
  refine ⟨(filterHistoricPlaces [dupPlace, dupPlace]).map fun place =>
    convertGooglePlaceToLocation (some "k") place 0 0, rfl, ?_, ?_⟩
  · rfl
  · have h2 : (((filterHistoricPlaces [dupPlace, dupPlace]).map fun place =>
        convertGooglePlaceToLocation (some "k") place 0 0).map Location.id) =
        ["dup", "dup"] := rfl
    rw [h2]
    decide

theorem staticFallbackImage_eq (place : GooglePlaceResponse) :
    (if place.types.contains "museum" then
      "https://images.unsplash.com/photo-1578495555443-d134c52754e7?w=400&h=300&fit=crop"
    else if place.types.contains "place_of_worship" || place.types.contains "hindu_temple" then
      "https://images.unsplash.com/photo-1583224964938-0c17db9e623a?w=400&h=300&fit=crop"
    else if place.types.contains "historical_landmark" || jsIncludes (jsToLower place.name) "fort" then
      "https://images.unsplash.com/photo-1566127952889-bf906f4e4c5d?w=400&h=300&fit=crop"
    else if jsIncludes (jsToLower place.name) "palace" then
      "https://images.unsplash.com/photo-1545042746-d0a8b69e5e22?w=400&h=300&fit=crop"
    else if jsIncludes (jsToLower place.name) "charminar" then
      "https://images.unsplash.com/photo-1564507592333-c60657eea523?w=400&h=300&fit=crop"
    else
      "https://images.unsplash.com/photo-1578662996442-48f60103fc96?w=400&h=300&fit=crop") =
    (match fallbackImageRules.find? fun rule => rule.1 place with
     | some rule => rule.2
     | none => "https://images.unsplash.com/photo-1578662996442-48f60103fc96?w=400&h=300&fit=crop") := by
  simp only [fallbackImageRules]
  split_ifs with h1 h2 h3 h4 h5
  · rw [List.find?_cons_of_pos _ (by simpa using h1)]
  · rw [List.find?_cons_of_neg _ (by simpa using h1),
      List.find?_cons_of_pos _ (by simpa using h2)]
  · rw [List.find?_cons_of_neg _ (by simpa using h1),
      List.find?_cons_of_neg _ (by simpa using h2),
      List.find?_cons_of_pos _ (by simpa using h3)]
  · rw [List.find?_cons_of_neg _ (by simpa using h1),
      List.find?_cons_of_neg _ (by simpa using h2),
      List.find?_cons_of_neg _ (by simpa using h3),
      List.find?_cons_of_pos _ (by simpa using h4)]
  · rw [List.find?_cons_of_neg _ (by simpa using h1),
      List.find?_cons_of_neg _ (by simpa using h2),
      List.find?_cons_of_neg _ (by simpa using h3),
      List.find?_cons_of_neg _ (by simpa using h4),
      List.find?_cons_of_pos _ (by simpa using h5)]
  · rw [List.find?_cons_of_neg _ (by simpa using h1),
      List.find?_cons_of_neg _ (by simpa using h2),
      List.find?_cons_of_neg _ (by simpa using h3),
      List.find?_cons_of_neg _ (by simpa using h4),
      List.find?_cons_of_neg _ (by simpa using h5)]
    rfl

/-- Claim C7 (amended): image resolution follows the deterministic ordered
policy `imageUrlPolicySpec`: with a photo reference and a configured key,
the provider photo-fetch URL of the documented query form prefixed by the
fixed CORS proxy base; otherwise the ordered static-fallback rules (museum
tag, worship tags, landmark tag or the word fort in the name, palace in
the name, charminar in the name), defaulting to the generic image. -/
theorem getImageUrl_policy (apiKey : Option String) (place : GooglePlaceResponse) :
    getImageUrl apiKey place = imageUrlPolicySpec apiKey place := by
  rcases hp : place.photos with _ | pl
  · cases apiKey <;>
      simp only [getImageUrl, imageUrlPolicySpec, hp] <;>
      exact staticFallbackImage_eq place
  · rcases pl with _ | ⟨photo, rest⟩
    · cases apiKey <;>
        simp only [getImageUrl, imageUrlPolicySpec, hp] <;>
        exact staticFallbackImage_eq place
    · cases apiKey
      · simp only [getImageUrl, imageUrlPolicySpec, hp]
        exact staticFallbackImage_eq place
      · simp only [getImageUrl, imageUrlPolicySpec, hp]
        rfl

/-- Claim C7 as stated is violated at two concrete inputs: a candidate
whose only fort signal is the type tag gets the generic default image,
not the landmark/fort image; and with a photo reference and key the
returned URL is the CORS-proxied provider photo URL, which does not start
with the provider photo endpoint. -/
theorem imageUrl_policy_claim_fails :
    getImageUrl none fortTagPlace =
      "https://images.unsplash.com/photo-1578662996442-48f60103fc96?w=400&h=300&fit=crop"
    ∧ getImageUrl none fortTagPlace ≠
      "https://images.unsplash.com/photo-1566127952889-bf906f4e4c5d?w=400&h=300&fit=crop"
    ∧ getImageUrl (some "KEY") photoRefPlace =
      "https://cors-anywhere.herokuapp.com/https://maps.googleapis.com/maps/api/place/photo?maxwidth=400&photoreference=REF&key=KEY"
    ∧ ("https://maps.googleapis.com".toList.isPrefixOf
        (getImageUrl (some "KEY") photoRefPlace).toList) = false := by
  refine ⟨rfl, by decide, rfl, by decide⟩

set_option maxRecDepth 8192

theorem calculateDistance_due_north (lat1 lat2 lon : ℝ)
    (h0 : 0 ≤ (lat2 - lat1) * Real.pi / 180)
    (h1 : (lat2 - lat1) * Real.pi / 180 < Real.pi) :
    calculateDistance lat1 lon lat2 lon =
      jsRound (6371 * ((lat2 - lat1) * Real.pi / 180) * 1000) := by
  have hpi := Real.pi_pos
  simp only [calculateDistance]
  set θ := (lat2 - lat1) * Real.pi / 180 with hθ
  have hθ2lo : 0 ≤ θ / 2 := by linarith
  have hθ2hi : θ / 2 < Real.pi / 2 := by linarith
  have hsin : 0 ≤ Real.sin (θ / 2) :=
    Real.sin_nonneg_of_nonneg_of_le_pi hθ2lo (by linarith)
  have hcos : 0 < Real.cos (θ / 2) :=
    Real.cos_pos_of_mem_Ioo ⟨by linarith, hθ2hi⟩
  rw [show (lon - lon) * Real.pi / 180 / 2 = 0 by ring, Real.sin_zero]
  rw [show Real.cos (lat1 * Real.pi / 180) * Real.cos (lat2 * Real.pi / 180) * 0 * 0 = 0 by ring,
    add_zero]
  rw [Real.sqrt_mul_self hsin]
  rw [show (1 : ℝ) - Real.sin (θ / 2) * Real.sin (θ / 2) =
      Real.cos (θ / 2) * Real.cos (θ / 2) by
    nlinarith [Real.sin_sq_add_cos_sq (θ / 2)]]
  rw [Real.sqrt_mul_self hcos.le]
  rw [atan2, if_pos hcos]
  rw [show Real.sin (θ / 2) / Real.cos (θ / 2) = Real.tan (θ / 2) from
    (Real.tan_eq_sin_div_cos _).symm]
  rw [Real.arctan_tan (by linarith) hθ2hi]
  congr 1
  ring

/-- Claim C5: for the Hyderabad anchor, a lone provider candidate named
Charminar tagged tourist_attraction with address Charminar Rd, Hyderabad
and located 1.11 km due north yields exactly one place whose distance
label is 1.1km and whose description contains neither rated nor status. -/
theorem charminar_scenario :
    ∃ loc : Location,
      fetchHistoricPlacesWithCORS envCharminar hydLat hydLng = Except.ok [loc]
      ∧ loc.distance = "1.1km"
      ∧ jsIncludes (jsToLower loc.description) "rated" = false
      ∧ jsIncludes (jsToLower loc.description) "status" = false := by
  refine ⟨convertGooglePlaceToLocation (some "k") charminarCandidate hydLat hydLng,
    ?_, ?_, ?_, ?_⟩
  · rfl
  · have hproj : (convertGooglePlaceToLocation (some "k") charminarCandidate hydLat hydLng).distance
        = formatDistance (calculateDistance hydLat hydLng charminarLat hydLng) := rfl
    rw [hproj]
    have hθeq : (charminarLat - hydLat) * Real.pi / 180 = 1.11 / 6371 := by
      have hx : charminarLat - hydLat = 1.11 / 6371 * (180 / Real.pi) := by
        unfold charminarLat; ring
      rw [hx]
      field_simp
      ring
    have h0 : 0 ≤ (charminarLat - hydLat) * Real.pi / 180 := by rw [hθeq]; norm_num
    have h1 : (charminarLat - hydLat) * Real.pi / 180 < Real.pi := by
      rw [hθeq]
      have hq : (1.11 : ℝ) / 6371 < 3 := by norm_num
      linarith [Real.pi_gt_three]
    rw [calculateDistance_due_north hydLat charminarLat hydLng h0 h1, hθeq]
    rw [show (6371 : ℝ) * (1.11 / 6371) * 1000 = 1110 by norm_num]
    rw [show jsRound (1110 : ℝ) = 1110 by
      unfold jsRound
      rw [Int.floor_eq_iff]
      constructor <;> norm_num]
    decide
  · decide
  · decide
